import Mathlib

/-!
Shallow embedding of `src/main.rs` of fema-web-declaration.

The program builds paginated request URLs (`get_uri`), fetches page 0 with
metadata to learn the total `count` (an `i32`), loops over pages
`1 .. count as usize / size + 1`, accumulates the entries in order, and
optionally writes them to a CSV file.

Machine integers are modelled as `Int`/`Nat`; the one place where overflow
matters in the source — the `count as i32 → usize` cast — is modelled
explicitly as reduction modulo `2 ^ 64`.  Network fetches are modelled by an
oracle (`Server`) giving each page request's outcome; the CSV writer is
modelled by an explicit file-system state (`FS`) plus a per-record
serialization oracle.
-/

namespace Fema

/-- Failure of one HTTP page request: transport error (`reqwest::get ... .await?`),
non-success status (`error_for_status()?`), or JSON deserialization error
(`.json::<..>().await?`). -/
inductive FetchError where
  | transport
  | httpStatus
  | deserialization
deriving DecidableEq, Repr, Inhabited

/-- One declaration-area record (struct `Entry` in `main.rs`).  `DateTime<Utc>`
fields are modelled as `Int` (seconds since the Unix epoch). -/
structure Entry where
  disasterNumber : Int
  programTypeCode : String
  programTypeDescription : String
  stateCode : String
  placeCode : String
  placeName : String
  designatedDate : Int
  entryDate : Int
  updateDate : Int
  hash : String
  lastRefresh : Int
  id : String
deriving DecidableEq, Repr, Inhabited

/-- Response envelope without metadata (struct `Response` in `main.rs`). -/
structure Response where
  FemaWebDeclarationAreas : List Entry
deriving DecidableEq, Repr, Inhabited

/-- Pagination metadata block (struct `Metadata` in `main.rs`).  The two
`HashMap` fields are modelled as association lists. -/
structure Metadata where
  skip : Int
  top : Int
  count : Int
  filter : String
  format : String
  metadata : Bool
  orderby : List (String × String)
  select : String
  entityname : String
  version : String
  url : String
  rundate : Int
  DeprecationInformation : List (String × Option String)
deriving DecidableEq, Repr, Inhabited

/-- First-page envelope carrying the metadata block
(struct `ResponseWithMetaData` in `main.rs`). -/
structure ResponseWithMetaData where
  metadata : Metadata
  FemaWebDeclarationAreas : List Entry
deriving DecidableEq, Repr, Inhabited

/-- Configuration (struct `Config` in `main.rs`); `PathBuf` is modelled as
`String`. -/
structure Config where
  debug : Bool
  num_years_previous : Nat
  csv : Option String
deriving DecidableEq, Repr

/-- The `Default` impl for `Config` in `main.rs`. -/
def Config.default : Config :=
  { debug := false, num_years_previous := 3, csv := some "out.csv" }

/-- The URI builder `get_uri` in `main.rs`: string concatenation mirroring the
two `format!` branches. -/
def get_uri (metadata : Bool) (base query : String) (page : Nat)
    (size : Option Nat) : String :=
  let md_str := if metadata then "on" else "off"
  match size with
  | some s =>
      base ++ "?" ++ query ++ "&$skip=" ++ toString (page * s) ++ "&$top=" ++
        toString s ++ "&$metadata=" ++ md_str
  | none => base ++ "?" ++ query ++ "&$metadata=" ++ md_str

/-- The fixed page size: `let size: usize = 1000;` in `main`. -/
def size : Nat := 1000

/-- The base endpoint: `let base_uri = ...` in `main`. -/
def base_uri : String := "https://www.fema.gov/api/open/v1/FemaWebDeclarationAreas"

/-- Rust `count as usize` where `count : i32`: sign-extension to 64 bits and
reinterpretation as unsigned, i.e. reduction modulo `2 ^ 64`.  Faithful for
every `c` in the `i32` range. -/
def usize_of_i32 (c : Int) : Nat := (c % (2 : Int) ^ 64).toNat

/-- The accumulator pre-sizing `Vec::with_capacity(count as usize)` in `main`. -/
def accumulatorCapacity (c : Int) : Nat := usize_of_i32 c

/-- The (exclusive) upper bound of the page loop
`for page in 1 .. count as usize / size + 1` in `main`; it equals the total
number of pages including page 0. -/
def totalPagesBound (c : Int) : Nat := usize_of_i32 c / size + 1

/-- The page indices visited by the loop in `main`: `1, ..., totalPagesBound c - 1`. -/
def pageIndices (c : Int) : List Nat := List.range' 1 (usize_of_i32 c / size)

/-- Oracle for the HTTP transport: the outcome of the metadata-bearing page-0
request and of each subsequent page request. -/
structure Server where
  page0 : Except FetchError ResponseWithMetaData
  pages : Nat → Except FetchError Response

/-- The page loop in `main` (lines 157-172): fetch each page in order,
append its entries, abort on the first failure. -/
def runPages (srv : Server) (entries : List Entry) :
    List Nat → Except FetchError (List Entry)
  | [] => .ok entries
  | p :: ps =>
    match srv.pages p with
    | .error e => .error e
    | .ok r => runPages srv (entries ++ r.FemaWebDeclarationAreas) ps

/-- The retrieval phase of `main` (lines 146-172): page 0 with metadata, then
the loop over `pageIndices count`. -/
def retrieve (srv : Server) : Except FetchError (List Entry) :=
  match srv.page0 with
  | .error e => .error e
  | .ok r => runPages srv r.FemaWebDeclarationAreas (pageIndices r.metadata.count)

/-- URL of a subsequent (metadata-off) page request, as issued at line 163. -/
def pageUrl (base query : String) (p : Nat) : String :=
  get_uri false base query p (some size)

/-- Request URLs issued by the page loop, stopping after the first failing
request (the `?` operator returns from `main`). -/
def runPagesTrace (base query : String) (srv : Server) : List Nat → List String
  | [] => []
  | p :: ps =>
    match srv.pages p with
    | .error _ => [pageUrl base query p]
    | .ok _ => pageUrl base query p :: runPagesTrace base query srv ps

/-- Full sequence of request URLs issued by one run of the retrieval phase:
the page-0 URL, then the loop's URLs up to the first failure. -/
def requestTrace (base query : String) (srv : Server) : List String :=
  match srv.page0 with
  | .error _ => [get_uri true base query 0 (some size)]
  | .ok r =>
      get_uri true base query 0 (some size) ::
        runPagesTrace base query srv (pageIndices r.metadata.count)

/-- Failure of the export phase: `csv::Writer::from_path(path)?` or
`csvwriter.serialize(entry)?`. -/
inductive ExportError where
  | path
  | serialize
deriving DecidableEq, Repr, Inhabited

/-- State of the configured output destination: `none` when no file exists
there, `some l` when a file holding the records `l` does. -/
structure FS where
  file : Option (List Entry)
deriving DecidableEq, Repr

/-- The serialize loop at lines 176-178: write each entry in order; the
oracle `ser` says whether serializing the i-th record succeeds.  Returns the
outcome and the records in the file. -/
def writeEntries (ser : Nat → Bool) :
    List Entry → Nat → List Entry → Except ExportError Unit × List Entry
  | [], _, written => (.ok (), written)
  | e :: es, i, written =>
    if ser i then writeEntries ser es (i + 1) (written ++ [e])
    else (.error .serialize, written)

/-- The export phase body (lines 175-178): `Writer::from_path` creates or
truncates the file (oracle `fromPathOk` says whether opening succeeds), then
each record is serialized in order. -/
def exportCsv (ser : Nat → Bool) (fromPathOk : Bool) (entries : List Entry)
    (fs : FS) : Except ExportError Unit × FS :=
  if fromPathOk then
    let r := writeEntries ser entries 0 []
    (r.1, ⟨some r.2⟩)
  else (.error .path, fs)

/-- Overall failure of a run. -/
inductive ProgError where
  | fetch (e : FetchError)
  | write (e : ExportError)
deriving DecidableEq, Repr

/-- The body of `main` after configuration loading: retrieval, then
`if let Some(path) = &cfg.csv { ... }`.  Returns the process outcome and the
final state of the output destination. -/
def mainRun (cfg : Config) (srv : Server) (ser : Nat → Bool)
    (fromPathOk : Bool) (fs : FS) : Except ProgError Unit × FS :=
  match retrieve srv with
  | .error e => (.error (.fetch e), fs)
  | .ok entries =>
    match cfg.csv with
    | none => (.ok (), fs)
    | some _path =>
      match exportCsv ser fromPathOk entries fs with
      | (.ok _, fsOut) => (.ok (), fsOut)
      | (.error e, fsOut) => (.error (.write e), fsOut)

/-- The cutoff computation at line 138:
`now - Duration::days(years_before as i64 * 365)`, with time in seconds, so
one day is 86400 seconds. -/
def cutoff (now : Int) (years_before : Nat) : Int :=
  now - (years_before : Int) * 365 * 86400

/-- Lines 136-138 of `main`: the cutoff derived from the configuration. -/
def mainCutoff (cfg : Config) (now : Int) : Int :=
  cutoff now cfg.num_years_previous

/-- Modelled from the spec: proleptic-Gregorian day number of a civil date
(days since 1970-01-01), needed to give meaning to the spec's phrase
"now minus N years", which the source (via `chrono`) does not compute; the
source uses 365-day increments instead. -/
def daysFromCivil (y : Int) (m d : Nat) : Int :=
  let y2 : Int := if m ≤ 2 then y - 1 else y
  let era : Int := (if 0 ≤ y2 then y2 else y2 - 399) / 400
  let yoe : Int := y2 - era * 400
  let mp : Nat := (m + 9) % 12
  let doy : Int := (153 * mp + 2) / 5 + d - 1
  let doe : Int := yoe * 365 + yoe / 4 - yoe / 100 + doy
  era * 146097 + doe - 719468

/-- Modelled from the spec: the Unix timestamp (seconds) of midnight of a
civil date. -/
def civilTimestamp (y : Int) (m d : Nat) : Int := daysFromCivil y m d * 86400

/-- Modelled from the spec: "the current time minus num_years_previous years"
for a current time of midnight (y, m, d) — calendar-year subtraction keeps the
month and day and decrements the year. -/
def minusYearsTimestamp (y : Int) (m d : Nat) (n : Nat) : Int :=
  civilTimestamp (y - n) m d

/-! ## Helper lemmas about the pagination loop -/

theorem runPages_all_ok (srv : Server) (f : Nat → Response) :
    ∀ (ps : List Nat) (acc : List Entry),
      (∀ p ∈ ps, srv.pages p = .ok (f p)) →
      runPages srv acc ps =
        .ok (acc ++ (ps.map fun p => (f p).FemaWebDeclarationAreas).flatten)
  | [], acc, _ => by simp [runPages]
  | p :: ps, acc, h => by
    have hp : srv.pages p = .ok (f p) := h p (List.mem_cons_self p ps)
    have ih := runPages_all_ok srv f ps (acc ++ (f p).FemaWebDeclarationAreas)
      (fun q hq => h q (List.mem_cons_of_mem p hq))
    simp only [runPages, hp, ih, List.map_cons, List.flatten_cons, List.append_assoc]

theorem runPagesTrace_all_ok (base query : String) (srv : Server) :
    ∀ ps : List Nat,
      (∀ p ∈ ps, ∃ resp, srv.pages p = .ok resp) →
      runPagesTrace base query srv ps = ps.map (pageUrl base query)
  | [], _ => rfl
  | p :: ps, h => by
    obtain ⟨resp, hresp⟩ := h p (List.mem_cons_self p ps)
    have ih := runPagesTrace_all_ok base query srv ps
      (fun q hq => h q (List.mem_cons_of_mem p hq))
    simp only [runPagesTrace, hresp, ih, List.map_cons]

theorem runPages_first_error (srv : Server) (e : FetchError) (k : Nat)
    (hk : srv.pages k = .error e) :
    ∀ (ps1 ps2 : List Nat) (acc : List Entry),
      (∀ p ∈ ps1, ∃ resp, srv.pages p = .ok resp) →
      runPages srv acc (ps1 ++ k :: ps2) = .error e
  | [], ps2, acc, _ => by simp [runPages, hk]
  | p :: ps1, ps2, acc, h => by
    obtain ⟨resp, hresp⟩ := h p (List.mem_cons_self p ps1)
    have ih := runPages_first_error srv e k hk ps1 ps2
      (acc ++ resp.FemaWebDeclarationAreas)
      (fun q hq => h q (List.mem_cons_of_mem p hq))
    simp only [List.cons_append, runPages, hresp]
    exact ih

theorem runPagesTrace_first_error (base query : String) (srv : Server)
    (e : FetchError) (k : Nat) (hk : srv.pages k = .error e) :
    ∀ ps1 ps2 : List Nat,
      (∀ p ∈ ps1, ∃ resp, srv.pages p = .ok resp) →
      runPagesTrace base query srv (ps1 ++ k :: ps2) =
        (ps1 ++ [k]).map (pageUrl base query)
  | [], ps2, _ => by simp [runPagesTrace, hk]
  | p :: ps1, ps2, h => by
    obtain ⟨resp, hresp⟩ := h p (List.mem_cons_self p ps1)
    have ih := runPagesTrace_first_error base query srv e k hk ps1 ps2
      (fun q hq => h q (List.mem_cons_of_mem p hq))
    simp only [List.cons_append, runPagesTrace, hresp, List.map_cons]
    exact congrArg (pageUrl base query p :: ·) ih

/-! ## Helper lemmas about the `i32 → usize` cast -/

theorem usize_of_i32_nonneg (c : Int) (h0 : 0 ≤ c) (h1 : c < 2 ^ 31) :
    usize_of_i32 c = c.toNat := by
  have h64 : (2 : Int) ^ 64 = 18446744073709551616 := by norm_num
  have h31 : (2 : Int) ^ 31 = 2147483648 := by norm_num
  rw [h31] at h1
  unfold usize_of_i32
  rw [h64]
  omega

theorem usize_of_i32_neg (c : Int) (hlo : -(2 ^ 31) ≤ c) (hhi : c < 0) :
    usize_of_i32 c = ((2 : Int) ^ 64 + c).toNat := by
  have h64 : (2 : Int) ^ 64 = 18446744073709551616 := by norm_num
  have h31 : (2 : Int) ^ 31 = 2147483648 := by norm_num
  rw [h31] at hlo
  unfold usize_of_i32
  rw [h64]
  omega

/-! ## Helper lemma about the serialize loop -/

theorem writeEntries_first_failure (ser : Nat → Bool) :
    ∀ (l : List Entry) (k i : Nat) (acc : List Entry),
      k < l.length → (∀ j, j < k → ser (i + j) = true) → ser (i + k) = false →
      writeEntries ser l i acc = (.error .serialize, acc ++ l.take k)
  | [], k, _, _, hk, _, _ => absurd hk (by simp)
  | e :: es, 0, i, acc, _, _, hfail => by
    simp only [Nat.add_zero] at hfail
    simp [writeEntries, hfail]
  | e :: es, k + 1, i, acc, hk, hok, hfail => by
    have h0 : ser i = true := by
      have := hok 0 (Nat.succ_pos k)
      simpa using this
    have ih := writeEntries_first_failure ser es k (i + 1) (acc ++ [e])
      (by simpa using hk)
      (fun j hj => by
        have := hok (j + 1) (Nat.succ_lt_succ hj)
        simpa [Nat.add_assoc, Nat.add_comm 1 j] using this)
      (by
        have := hfail
        simpa [Nat.add_assoc, Nat.add_comm 1 k] using this)
    simp [writeEntries, h0, ih]

/-! ## Concrete fixtures used by witness theorems -/

/-- Metadata block whose `count` is `c` and whose other fields are defaults. -/
def mdCount (c : Int) : Metadata := { (default : Metadata) with count := c }

/-- Entry whose `disasterNumber` is `n` and whose other fields are defaults. -/
def entryN (n : Int) : Entry := { (default : Entry) with disasterNumber := n }

/-- Serialization oracle where every record write succeeds. -/
def serAll : Nat → Bool := fun _ => true

/-- Server reporting `count = 0` and no entries; every page succeeds. -/
def srvZero : Server :=
  { page0 := .ok { metadata := mdCount 0, FemaWebDeclarationAreas := [] },
    pages := fun _ => .ok { FemaWebDeclarationAreas := [] } }

/-- Server reporting `count = 2500`; page 1 succeeds, page 2 returns a
non-success HTTP status. -/
def srvFail : Server :=
  { page0 := .ok { metadata := mdCount 2500, FemaWebDeclarationAreas := [entryN 0] },
    pages := fun p =>
      if p = 1 then .ok { FemaWebDeclarationAreas := [entryN 1] }
      else .error .httpStatus }

/-- Server reporting `count = 2500`; page `p` returns the single entry
`entryN p`. -/
def srvCat : Server :=
  { page0 := .ok { metadata := mdCount 2500, FemaWebDeclarationAreas := [entryN 0] },
    pages := fun p => .ok { FemaWebDeclarationAreas := [entryN p] } }

/-- Page oracle for `srv2000`: page 2 (the trailing page) is empty, other
pages hold one entry. -/
def f2000 : Nat → Response := fun p =>
  if p = 2 then { FemaWebDeclarationAreas := [] }
  else { FemaWebDeclarationAreas := [entryN p] }

/-- Server reporting `count = 2000` (an exact positive multiple of the page
size) with one page-0 entry, whose trailing page 2 is empty. -/
def srv2000 : Server :=
  { page0 := .ok { metadata := mdCount 2000, FemaWebDeclarationAreas := [entryN 7] },
    pages := fun p => .ok (f2000 p) }

/-- Server reporting `count = 1500` with some page contents. -/
def srvA : Server :=
  { page0 := .ok { metadata := mdCount 1500, FemaWebDeclarationAreas := [entryN 1] },
    pages := fun _ => .ok { FemaWebDeclarationAreas := [entryN 2] } }

/-- Metadata block agreeing with `mdCount 1500` on `count` but differing in
other fields. -/
def mdB : Metadata := { (mdCount 1500) with skip := 5, filter := "f" }

/-- Server reporting `count = 1500` with different entries and different
non-`count` metadata fields than `srvA`. -/
def srvB : Server :=
  { page0 := .ok { metadata := mdB, FemaWebDeclarationAreas := [] },
    pages := fun _ => .ok { FemaWebDeclarationAreas := [] } }

/-- Configuration with no output destination. -/
def cfgNoCsv : Config := { Config.default with csv := none }

/-! ## Claims -/

/-- Claim C1: with pageSize fixed at 1000, the computed total page count is
`floor(count / pageSize) + 1`, the loop after page 0 has `totalPages - 1`
iterations (so a fully successful run issues `totalPages - 1` page requests
after page 0), and for `count = 0` exactly one page is fetched and the loop
body never runs. -/
theorem C1_total_pages_and_requests
    (c : Int) (h0 : 0 ≤ c) (h1 : c < 2 ^ 31)
    (base query : String) (srv : Server) (r : ResponseWithMetaData)
    (hp : srv.page0 = .ok r) (hc : r.metadata.count = c) :
    totalPagesBound c = c.toNat / size + 1 ∧
    (pageIndices c).length = totalPagesBound c - 1 ∧
    ((∀ p ∈ pageIndices c, ∃ resp, srv.pages p = .ok resp) →
      (requestTrace base query srv).length = 1 + (totalPagesBound c - 1)) ∧
    (c = 0 → pageIndices c = [] ∧
      requestTrace base query srv = [get_uri true base query 0 (some size)]) := by
  have hu := usize_of_i32_nonneg c h0 h1
  refine ⟨?_, ?_, ?_, ?_⟩
  · unfold totalPagesBound
    rw [hu]
  · unfold pageIndices totalPagesBound
    simp
  · intro hok
    simp only [requestTrace, hp, hc]
    rw [runPagesTrace_all_ok base query srv (pageIndices c) hok]
    have hl : (pageIndices c).length = usize_of_i32 c / size := by
      unfold pageIndices
      simp
    rw [List.length_cons, List.length_map, hl]
    unfold totalPagesBound
    omega
  · intro hzero
    subst hzero
    have hpi : pageIndices (0 : Int) = [] := by
      unfold pageIndices
      rw [hu]
      rfl
    refine ⟨hpi, ?_⟩
    simp only [requestTrace, hp, hc, hpi, runPagesTrace]

/-- Witness for C1, at `count = 0` with a concrete server: exactly one page
fetched and zero loop iterations. -/
theorem C1_total_pages_and_requests_witness :
    totalPagesBound 0 = (0 : Int).toNat / size + 1 ∧
    (pageIndices 0).length = totalPagesBound 0 - 1 ∧
    (requestTrace "b" "q" srvZero).length = 1 + (totalPagesBound 0 - 1) ∧
    (pageIndices 0 = [] ∧
      requestTrace "b" "q" srvZero = [get_uri true "b" "q" 0 (some size)]) :=
  have h := C1_total_pages_and_requests 0 (by decide) (by decide) "b" "q" srvZero
    ⟨mdCount 0, []⟩ rfl rfl
  ⟨h.1, h.2.1,
    h.2.2.1 (fun p _ => ⟨{ FemaWebDeclarationAreas := [] }, rfl⟩),
    h.2.2.2 rfl⟩

/-- Claim C2: any page failure — page 0 included — aborts the run with no
partial result: the returned outcome is the error, the output destination's
state is unchanged (so the exporter never ran), and no request is issued
beyond the failing one. -/
theorem C2_abort_on_failure (base query : String) (cfg : Config) (srv : Server)
    (ser : Nat → Bool) (fp : Bool) (fs : FS) (e : FetchError) :
    (srv.page0 = .error e →
      retrieve srv = .error e ∧
      mainRun cfg srv ser fp fs = (.error (.fetch e), fs) ∧
      requestTrace base query srv = [get_uri true base query 0 (some size)]) ∧
    (∀ (r : ResponseWithMetaData) (ps1 : List Nat) (k : Nat) (ps2 : List Nat),
      srv.page0 = .ok r →
      pageIndices r.metadata.count = ps1 ++ k :: ps2 →
      (∀ p ∈ ps1, ∃ resp, srv.pages p = .ok resp) →
      srv.pages k = .error e →
      retrieve srv = .error e ∧
      mainRun cfg srv ser fp fs = (.error (.fetch e), fs) ∧
      requestTrace base query srv =
        get_uri true base query 0 (some size) ::
          (ps1 ++ [k]).map (pageUrl base query)) := by
  constructor
  · intro h
    have hret : retrieve srv = .error e := by
      simp only [retrieve, h]
    exact ⟨hret, by simp only [mainRun, hret], by simp only [requestTrace, h]⟩
  · intro r ps1 k ps2 hp hsplit hok hk
    have hret : retrieve srv = .error e := by
      simp only [retrieve, hp, hsplit]
      exact runPages_first_error srv e k hk ps1 ps2 r.FemaWebDeclarationAreas hok
    refine ⟨hret, by simp only [mainRun, hret], ?_⟩
    simp only [requestTrace, hp, hsplit]
    exact congrArg (get_uri true base query 0 (some size) :: ·)
      (runPagesTrace_first_error base query srv e k hk ps1 ps2 hok)

/-- Witness for C2: a server whose page-2 request fails with a non-success
status; the run errors, the file state is untouched, and only pages 0, 1, 2
are requested. -/
theorem C2_abort_on_failure_witness :
    retrieve srvFail = .error .httpStatus ∧
    mainRun Config.default srvFail serAll true ⟨none⟩ =
      (.error (.fetch .httpStatus), ⟨none⟩) ∧
    requestTrace "b" "q" srvFail =
      get_uri true "b" "q" 0 (some size) ::
        ([1] ++ [2]).map (pageUrl "b" "q") :=
  (C2_abort_on_failure "b" "q" Config.default srvFail serAll true ⟨none⟩
      .httpStatus).2
    ⟨mdCount 2500, [entryN 0]⟩ [1] 2 [] rfl rfl
    (fun p hp => by
      rw [List.mem_singleton] at hp
      subst hp
      exact ⟨{ FemaWebDeclarationAreas := [entryN 1] }, rfl⟩)
    rfl

/-- Claim C3: when every page succeeds, the result is exactly page 0's entries
followed by the entries of pages `1 .. totalPages - 1` in page order — plain
concatenation, no reordering, deduplication or sorting. -/
theorem C3_concatenation_order (srv : Server) (r : ResponseWithMetaData)
    (f : Nat → Response) (hp : srv.page0 = .ok r)
    (hok : ∀ p ∈ pageIndices r.metadata.count, srv.pages p = .ok (f p)) :
    retrieve srv = .ok (r.FemaWebDeclarationAreas ++
      ((pageIndices r.metadata.count).map
        fun p => (f p).FemaWebDeclarationAreas).flatten) := by
  simp only [retrieve, hp]
  exact runPages_all_ok srv f (pageIndices r.metadata.count)
    r.FemaWebDeclarationAreas hok

/-- Witness for C3: three pages with distinct entries concatenate in page
order. -/
theorem C3_concatenation_order_witness :
    retrieve srvCat = .ok [entryN 0, entryN 1, entryN 2] :=
  C3_concatenation_order srvCat ⟨mdCount 2500, [entryN 0]⟩
    (fun p => { FemaWebDeclarationAreas := [entryN p] }) rfl (fun _ _ => rfl)

/-- Claim C4: the URI builder produces exactly the concatenation given in the
spec in both the some-pageSize and no-pageSize cases, and the concrete example
evaluates to the exact string the spec gives. -/
theorem C4_get_uri_shape (md : Bool) (base query : String) (page s : Nat) :
    get_uri md base query page (some s) =
      base ++ "?" ++ query ++ "&$skip=" ++ toString (page * s) ++ "&$top=" ++
        toString s ++ "&$metadata=" ++ (if md then "on" else "off") ∧
    get_uri md base query page none =
      base ++ "?" ++ query ++ "&$metadata=" ++ (if md then "on" else "off") ∧
    get_uri true "https://x" "q=1" 2 (some 500) =
      "https://x?q=1&$skip=1000&$top=500&$metadata=on" :=
  ⟨rfl, rfl, by decide⟩

/-- Claim C5: for any count that is an exact positive multiple `m * 1000` of
the page size (within the i32 range), the loop bound is `m + 1`, so the final
extra page `m = count / pageSize` is still requested; and when that trailing
page returns an empty entry array the run is accepted without error,
returning just the entries of pages `0 .. m - 1`. -/
theorem C5_exact_multiple (m : Nat) (hm : 0 < m)
    (hbound : (m : Int) * 1000 < 2 ^ 31)
    (base query : String) (srv : Server) (r : ResponseWithMetaData)
    (hp : srv.page0 = .ok r) (hc : r.metadata.count = (m : Int) * 1000)
    (f : Nat → Response)
    (hok : ∀ p ∈ pageIndices ((m : Int) * 1000), srv.pages p = .ok (f p))
    (hlast : f m = { FemaWebDeclarationAreas := [] }) :
    totalPagesBound ((m : Int) * 1000) = m + 1 ∧
    pageIndices ((m : Int) * 1000) = List.range' 1 m ∧
    m ∈ pageIndices ((m : Int) * 1000) ∧
    requestTrace base query srv =
      get_uri true base query 0 (some size) ::
        (List.range' 1 m).map (pageUrl base query) ∧
    retrieve srv = .ok (r.FemaWebDeclarationAreas ++
      ((List.range' 1 (m - 1)).map
        fun p => (f p).FemaWebDeclarationAreas).flatten) := by
  have h0 : (0 : Int) ≤ (m : Int) * 1000 := by positivity
  have hu : usize_of_i32 ((m : Int) * 1000) = m * 1000 := by
    rw [usize_of_i32_nonneg ((m : Int) * 1000) h0 hbound]
    omega
  have hdiv : usize_of_i32 ((m : Int) * 1000) / size = m := by
    rw [hu]
    unfold size
    omega
  have hpi : pageIndices ((m : Int) * 1000) = List.range' 1 m := by
    unfold pageIndices
    rw [hdiv]
  have hbnd : totalPagesBound ((m : Int) * 1000) = m + 1 := by
    unfold totalPagesBound
    rw [hdiv]
  have hmem : m ∈ pageIndices ((m : Int) * 1000) := by
    rw [hpi, List.mem_range'_1]
    omega
  refine ⟨hbnd, hpi, hmem, ?_, ?_⟩
  · simp only [requestTrace, hp, hc]
    rw [runPagesTrace_all_ok base query srv (pageIndices ((m : Int) * 1000))
      (fun p hp2 => ⟨f p, hok p hp2⟩), hpi]
  · simp only [retrieve, hp, hc]
    rw [runPages_all_ok srv f (pageIndices ((m : Int) * 1000))
      r.FemaWebDeclarationAreas hok, hpi]
    obtain ⟨k, rfl⟩ : ∃ k, m = k + 1 := ⟨m - 1, by omega⟩
    have hsplit : List.range' 1 (k + 1) 1 = List.range' 1 k 1 ++ [1 + 1 * k] :=
      List.range'_concat 1 k
    simp only [Nat.one_mul] at hsplit
    rw [hsplit]
    have hfk : f (1 + k) = { FemaWebDeclarationAreas := [] } := by
      rw [Nat.add_comm]
      exact hlast
    simp [hfk]

/-- Witness for C5, at `count = 2000 = 2 × 1000`: three total pages, the
trailing page 2 is still requested, and its empty entry array is accepted,
leaving pages 0 and 1's entries. -/
theorem C5_exact_multiple_witness :
    totalPagesBound (((2 : Nat) : Int) * 1000) = 2 + 1 ∧
    pageIndices (((2 : Nat) : Int) * 1000) = List.range' 1 2 ∧
    2 ∈ pageIndices (((2 : Nat) : Int) * 1000) ∧
    requestTrace "b" "q" srv2000 =
      get_uri true "b" "q" 0 (some size) ::
        (List.range' 1 2).map (pageUrl "b" "q") ∧
    retrieve srv2000 = .ok ([entryN 7] ++
      ((List.range' 1 (2 - 1)).map
        fun p => (f2000 p).FemaWebDeclarationAreas).flatten) :=
  C5_exact_multiple 2 (by decide) (by decide) "b" "q" srv2000
    ⟨mdCount 2000, [entryN 7]⟩ rfl rfl f2000 (fun _ _ => rfl) rfl

/-- Claim C6: on fully successful runs, the sequence of issued request URLs
is a function of the first response's `metadata.count` alone — two runs whose
first responses agree on `count` issue identical request sequences, whatever
the entry contents and the other metadata fields are. -/
theorem C6_requests_depend_only_on_count (base query : String)
    (srv1 srv2 : Server) (r1 r2 : ResponseWithMetaData)
    (hp1 : srv1.page0 = .ok r1) (hp2 : srv2.page0 = .ok r2)
    (hc : r1.metadata.count = r2.metadata.count)
    (hok1 : ∀ p ∈ pageIndices r1.metadata.count, ∃ resp, srv1.pages p = .ok resp)
    (hok2 : ∀ p ∈ pageIndices r2.metadata.count, ∃ resp, srv2.pages p = .ok resp) :
    requestTrace base query srv1 =
      get_uri true base query 0 (some size) ::
        (pageIndices r1.metadata.count).map (pageUrl base query) ∧
    requestTrace base query srv1 = requestTrace base query srv2 := by
  have t1 : requestTrace base query srv1 =
      get_uri true base query 0 (some size) ::
        (pageIndices r1.metadata.count).map (pageUrl base query) := by
    simp only [requestTrace, hp1]
    exact congrArg (get_uri true base query 0 (some size) :: ·)
      (runPagesTrace_all_ok base query srv1 (pageIndices r1.metadata.count) hok1)
  have t2 : requestTrace base query srv2 =
      get_uri true base query 0 (some size) ::
        (pageIndices r2.metadata.count).map (pageUrl base query) := by
    simp only [requestTrace, hp2]
    exact congrArg (get_uri true base query 0 (some size) :: ·)
      (runPagesTrace_all_ok base query srv2 (pageIndices r2.metadata.count) hok2)
  refine ⟨t1, ?_⟩
  rw [t1, t2, hc]

/-- Witness for C6: two servers agreeing only on `count = 1500` produce the
same request sequence. -/
theorem C6_requests_depend_only_on_count_witness :
    requestTrace "b" "q" srvA =
      get_uri true "b" "q" 0 (some size) ::
        (pageIndices (1500 : Int)).map (pageUrl "b" "q") ∧
    requestTrace "b" "q" srvA = requestTrace "b" "q" srvB :=
  C6_requests_depend_only_on_count "b" "q" srvA srvB
    ⟨mdCount 1500, [entryN 1]⟩ ⟨mdB, []⟩ rfl rfl rfl
    (fun _ _ => ⟨{ FemaWebDeclarationAreas := [entryN 2] }, rfl⟩)
    (fun _ _ => ⟨{ FemaWebDeclarationAreas := [] }, rfl⟩)

/-- Counterexample to claim C7: with the default configuration
(`num_years_previous = 3`) and current time 2026-10-12 (midnight UTC), the
code's cutoff — `now` minus `3 × 365` days — is not the current time minus
three calendar years (2023-10-12): a leap day (2024-02-29) lies in the
window, so the code's cutoff is one day later. -/
theorem C7_cutoff_counterexample :
    mainCutoff Config.default (civilTimestamp 2026 10 12) ≠
      minusYearsTimestamp 2026 10 12 3 := by decide

/-- Claim C7 as amended: the cutoff equals the current time minus
`num_years_previous × 365` days (86400-second days), where
`num_years_previous` defaults to 3; this agrees with calendar-year
subtraction only when no leap day lies in the window (e.g. one year back from
2023-10-12). -/
theorem C7_cutoff_amended (cfg : Config) (now : Int) :
    mainCutoff cfg now = now - (cfg.num_years_previous : Int) * 365 * 86400 ∧
    Config.default.num_years_previous = 3 ∧
    mainCutoff { Config.default with num_years_previous := 1 }
      (civilTimestamp 2023 10 12) = minusYearsTimestamp 2023 10 12 1 :=
  ⟨rfl, rfl, by decide⟩

/-- Claim C8: with no output destination configured (`csv = none`), a
successful retrieval ends the run successfully, the export step is skipped,
and the file-system state is untouched. -/
theorem C8_no_output_configured (cfg : Config) (srv : Server)
    (ser : Nat → Bool) (fp : Bool) (fs : FS) (entries : List Entry)
    (hcsv : cfg.csv = none) (hr : retrieve srv = .ok entries) :
    mainRun cfg srv ser fp fs = (.ok (), fs) := by
  simp only [mainRun, hr, hcsv]

/-- Witness for C8: concrete run with `csv = none` ends `.ok` and leaves the
(nonexistent) file alone. -/
theorem C8_no_output_configured_witness :
    mainRun cfgNoCsv srvZero serAll true ⟨none⟩ = (.ok (), ⟨none⟩) :=
  C8_no_output_configured cfgNoCsv srvZero serAll true ⟨none⟩ [] rfl rfl

/-- Claim C9: the `i32` metadata count is converted with `as usize` for both
the accumulator capacity and the loop bound, so for any negative count the
conversion wraps modulo `2 ^ 64`: the capacity is `2 ^ 64 + count` and the
loop bound is `(2 ^ 64 + count) / 1000 + 1`, far more than one page. -/
theorem C9_negative_count_wraps (c : Int) (hlo : -(2 ^ 31) ≤ c)
    (hhi : c < 0) :
    usize_of_i32 c = ((2 : Int) ^ 64 + c).toNat ∧
    accumulatorCapacity c = ((2 : Int) ^ 64 + c).toNat ∧
    totalPagesBound c = ((2 : Int) ^ 64 + c).toNat / 1000 + 1 ∧
    1 < totalPagesBound c := by
  have h := usize_of_i32_neg c hlo hhi
  have h64 : (2 : Int) ^ 64 = 18446744073709551616 := by norm_num
  have h31 : (2 : Int) ^ 31 = 2147483648 := by norm_num
  refine ⟨h, h, ?_, ?_⟩
  · unfold totalPagesBound size
    rw [h]
  · unfold totalPagesBound size
    rw [h, h64]
    rw [h31] at hlo
    omega

/-- Witness for C9, at `count = -1`: the capacity and bound wrap to
`2 ^ 64 - 1`-scale values. -/
theorem C9_negative_count_wraps_witness :
    usize_of_i32 (-1) = ((2 : Int) ^ 64 + (-1)).toNat ∧
    accumulatorCapacity (-1) = ((2 : Int) ^ 64 + (-1)).toNat ∧
    totalPagesBound (-1) = ((2 : Int) ^ 64 + (-1)).toNat / 1000 + 1 ∧
    1 < totalPagesBound (-1) :=
  C9_negative_count_wraps (-1) (by norm_num) (by norm_num)

/-- Claim C10: export is neither atomic nor conditional on entries existing:
when retrieval succeeds and a path is configured, opening the writer
truncates the file before any record is written — zero entries leave an
empty file, and a serialization failure at record `k` leaves exactly the
first `k` records in the file. -/
theorem C10_export_not_atomic (cfg : Config) (path : String) (srv : Server)
    (entries : List Entry) (ser : Nat → Bool) (fs : FS)
    (hcsv : cfg.csv = some path) (hr : retrieve srv = .ok entries) :
    (entries = [] → mainRun cfg srv ser true fs = (.ok (), ⟨some []⟩)) ∧
    (∀ k, k < entries.length → (∀ j, j < k → ser j = true) → ser k = false →
      mainRun cfg srv ser true fs =
        (.error (.write .serialize), ⟨some (entries.take k)⟩)) := by
  constructor
  · intro he
    subst he
    simp [mainRun, hr, hcsv, exportCsv, writeEntries]
  · intro k hk hok hfail
    have hw := writeEntries_first_failure ser entries k 0 [] hk
      (fun j hj => by simpa using hok j hj) (by simpa using hfail)
    simp [mainRun, hr, hcsv, exportCsv, hw]

/-- Witness for C10: a successful retrieval of zero entries with the default
configuration truncates a pre-existing file to an empty one. -/
theorem C10_export_not_atomic_witness :
    mainRun Config.default srvZero serAll true ⟨some [entryN 9]⟩ =
      (.ok (), ⟨some []⟩) :=
  (C10_export_not_atomic Config.default "out.csv" srvZero [] serAll
    ⟨some [entryN 9]⟩ rfl rfl).1 rfl

end Fema
